import Mathlib

/-!
Shallow embedding of the streaming anomaly-detection core:
`src/anomaly_detector.py` (class `AnomalyDetector`) and
`src/data_stream_simulator.py` (class `DataStreamSimulator`).

Python floats are modelled by real numbers; `numpy` aggregates are the
exact mean and population standard deviation; the `collections.deque`
with `maxlen` is a list that keeps only the last `maxlen` elements.
-/

namespace AnomalyDetection

/-- `np.mean(xs)`: arithmetic mean (sum divided by length). -/
noncomputable def npMean (xs : List ℝ) : ℝ := xs.sum / xs.length

/-- `np.var` with `ddof=0` (what `np.std` squares): mean squared deviation. -/
noncomputable def npVar (xs : List ℝ) : ℝ :=
  (xs.map (fun x => (x - npMean xs) ^ 2)).sum / xs.length

/-- `np.std(xs)`: population standard deviation, `sqrt` of `npVar`. -/
noncomputable def npStd (xs : List ℝ) : ℝ := Real.sqrt (npVar xs)

/-- The epsilon `1e-10` added to the standard deviation in `is_anomaly`
    (src/anomaly_detector.py line 81). -/
noncomputable def eps : ℝ := 1e-10

/-- Append on a `collections.deque(maxlen := cap)`: push `v` on the right,
    keep only the last `cap` elements (the oldest is evicted first). -/
def dequeAppend (cap : ℕ) (xs : List ℝ) (v : ℝ) : List ℝ :=
  let ys := xs ++ [v]
  ys.drop (ys.length - cap)

/-- State of `AnomalyDetector` (src/anomaly_detector.py).
    `values` holds the rolling window, oldest sample first.
    In Python `mean`/`std` are unset until the first `update_statistics`;
    they are never read before then, so the initial `0`s are unobservable. -/
structure AnomalyDetector where
  window_size : ℕ
  threshold : ℝ
  values : List ℝ
  is_initialized : Bool
  mean : ℝ
  std : ℝ

/-- `AnomalyDetector.__init__` for a non-negative `window_size`
    (src/anomaly_detector.py lines 28-40). -/
def AnomalyDetector.init (window_size : ℕ) (threshold : ℝ) : AnomalyDetector :=
  { window_size := window_size
    threshold := threshold
    values := []
    is_initialized := false
    mean := 0
    std := 0 }

/-- `AnomalyDetector.__init__` with its failure behaviour: the only check is
    inside `deque(maxlen=window_size)`, which raises `ValueError` when
    `maxlen` is negative.  No validation of `window_size = 0` or of
    `threshold` is performed (src/anomaly_detector.py lines 28-40). -/
def mkAnomalyDetector (window_size : ℤ) (threshold : ℝ) : Option AnomalyDetector :=
  if window_size < 0 then none
  else some (AnomalyDetector.init window_size.toNat threshold)

/-- `update_statistics` (src/anomaly_detector.py lines 42-50):
    recompute `self.mean` and `self.std` from the current window. -/
noncomputable def update_statistics (s : AnomalyDetector) : AnomalyDetector :=
  { s with mean := npMean s.values, std := npStd s.values }

/-- `is_anomaly` (src/anomaly_detector.py lines 52-89): returns the verdict
    and the mutated detector state. -/
noncomputable def is_anomaly (s : AnomalyDetector) (value : ℝ) : Bool × AnomalyDetector :=
  -- Wait for sufficient data before detecting anomalies
  if s.values.length < s.window_size / 2 then
    (false, { s with values := dequeAppend s.window_size s.values value })
  else
    -- Initialize statistics if this is the first time we have enough data
    let s1 := if s.is_initialized then s
              else { update_statistics s with is_initialized := true }
    -- Calculate z-score (how many standard deviations from mean)
    let z_score := (value - s1.mean) / (s1.std + eps)
    -- Update rolling window and statistics
    let s2 := update_statistics { s1 with values := dequeAppend s1.window_size s1.values value }
    (decide (|z_score| > s1.threshold), s2)

/-- Feed a list of samples one by one; return the final detector state. -/
noncomputable def runDetector (s : AnomalyDetector) : List ℝ → AnomalyDetector
  | [] => s
  | v :: vs => runDetector (is_anomaly s v).2 vs

/-- Feed a list of samples one by one; return the list of verdicts. -/
noncomputable def runOutputs (s : AnomalyDetector) : List ℝ → List Bool
  | [] => []
  | v :: vs => (is_anomaly s v).1 :: runOutputs (is_anomaly s v).2 vs

/-- State of `DataStreamSimulator` (src/data_stream_simulator.py).
    `seasonal_period` is a Python int, so it may be zero or negative. -/
structure DataStreamSimulator where
  seasonal_period : ℤ
  trend_factor : ℝ
  noise_level : ℝ
  counter : ℕ

/-- `DataStreamSimulator.__init__` (src/data_stream_simulator.py lines 24-36):
    stores the parameters unchecked and starts the counter at 0. -/
def mkDataStreamSimulator (seasonal_period : ℤ) (trend_factor noise_level : ℝ) :
    DataStreamSimulator :=
  { seasonal_period := seasonal_period
    trend_factor := trend_factor
    noise_level := noise_level
    counter := 0 }

/-- One call's worth of randomness for `get_next_value`:
    `gauss` is a standard normal draw, so `np.random.normal(0, noise_level)`
    is `noise_level * gauss`; `u` is `np.random.random()` in `[0, 1)`;
    `negative` records `np.random.choice([-1, 1]) == -1`;
    `magnitude` is `np.random.uniform(5, 10)`. -/
structure RandomDraws where
  gauss : ℝ
  u : ℝ
  negative : Bool
  magnitude : ℝ

/-- `get_next_value` (src/data_stream_simulator.py lines 38-72), with the
    randomness passed in explicitly: returns the produced value and the
    mutated simulator. -/
noncomputable def get_next_value (s : DataStreamSimulator) (r : RandomDraws) :
    ℝ × DataStreamSimulator :=
  -- Generate seasonal pattern using sine wave
  let seasonal := Real.sin (2 * Real.pi * s.counter / s.seasonal_period)
  -- Add linear trend
  let trend := s.trend_factor * s.counter
  -- Add random noise from normal distribution
  let noise := s.noise_level * r.gauss
  -- Randomly inject anomalies (1% probability)
  let anomaly :=
    if r.u < 0.01 then
      let direction : ℝ := if r.negative then -1 else 1
      let magnitude := if r.negative then r.magnitude * 1.5 else r.magnitude
      direction * magnitude
    else 0
  (seasonal + trend + noise + anomaly, { s with counter := s.counter + 1 })

/-- `get_next_value` with its one failure point made explicit: the Python
    expression `2 * np.pi * self.counter / self.seasonal_period` divides a
    float by the int `seasonal_period` and raises `ZeroDivisionError` when
    the period is zero.  Every other operation is total on finite inputs. -/
noncomputable def get_next_value_checked (s : DataStreamSimulator) (r : RandomDraws) :
    Option (ℝ × DataStreamSimulator) :=
  if s.seasonal_period = 0 then none else some (get_next_value s r)

/-- The seasonal term `sin(2π · counter / seasonal_period)`. -/
noncomputable def seasonalTerm (s : DataStreamSimulator) : ℝ :=
  Real.sin (2 * Real.pi * s.counter / s.seasonal_period)

/-- The trend term `trend_factor · counter`. -/
noncomputable def trendTerm (s : DataStreamSimulator) : ℝ :=
  s.trend_factor * s.counter

/-- The noise term: one draw from `Normal(0, noise_level)`. -/
noncomputable def noiseTerm (s : DataStreamSimulator) (r : RandomDraws) : ℝ :=
  s.noise_level * r.gauss

/-- The outlier term: `0` unless `u < 0.01`; otherwise a signed spike of
    magnitude in `[5, 10]`, the magnitude multiplied by `1.5` when the
    sign is negative. -/
noncomputable def outlierTerm (r : RandomDraws) : ℝ :=
  if r.u < 0.01 then
    (if r.negative then (-1 : ℝ) else 1) *
      (if r.negative then r.magnitude * 1.5 else r.magnitude)
  else 0

/-! ### Basic lemmas about the window and the two branches of `is_anomaly` -/

theorem dequeAppend_length (cap : ℕ) (xs : List ℝ) (v : ℝ) :
    (dequeAppend cap xs v).length = min (xs.length + 1) cap := by
  simp [dequeAppend]
  omega

theorem dequeAppend_of_lt (cap : ℕ) (xs : List ℝ) (v : ℝ) (h : xs.length < cap) :
    dequeAppend cap xs v = xs ++ [v] := by
  have h0 : xs.length + 1 - cap = 0 := by omega
  simp [dequeAppend, h0]

theorem dequeAppend_eq_drop (cap : ℕ) (xs : List ℝ) (v : ℝ) :
    dequeAppend cap xs v = (xs ++ [v]).drop (xs.length + 1 - cap) := by
  simp [dequeAppend]

theorem is_anomaly_warmup (s : AnomalyDetector) (v : ℝ)
    (h : s.values.length < s.window_size / 2) :
    is_anomaly s v = (false, { s with values := s.values ++ [v] }) := by
  have hlt : s.values.length < s.window_size := lt_of_lt_of_le h (Nat.div_le_self _ _)
  simp [is_anomaly, h, dequeAppend_of_lt _ _ _ hlt]

theorem is_anomaly_classify_not_init (s : AnomalyDetector) (v : ℝ)
    (hlen : ¬ s.values.length < s.window_size / 2) (hinit : s.is_initialized = false) :
    is_anomaly s v =
      (decide (|(v - npMean s.values) / (npStd s.values + eps)| > s.threshold),
       { window_size := s.window_size, threshold := s.threshold,
         values := dequeAppend s.window_size s.values v, is_initialized := true,
         mean := npMean (dequeAppend s.window_size s.values v),
         std := npStd (dequeAppend s.window_size s.values v) }) := by
  simp [is_anomaly, hlen, hinit, update_statistics]

theorem is_anomaly_classify_init (s : AnomalyDetector) (v : ℝ)
    (hlen : ¬ s.values.length < s.window_size / 2) (hinit : s.is_initialized = true) :
    is_anomaly s v =
      (decide (|(v - s.mean) / (s.std + eps)| > s.threshold),
       { window_size := s.window_size, threshold := s.threshold,
         values := dequeAppend s.window_size s.values v, is_initialized := true,
         mean := npMean (dequeAppend s.window_size s.values v),
         std := npStd (dequeAppend s.window_size s.values v) }) := by
  simp [is_anomaly, hlen, hinit, update_statistics]

theorem is_anomaly_values (s : AnomalyDetector) (v : ℝ) :
    (is_anomaly s v).2.values = dequeAppend s.window_size s.values v := by
  by_cases hlen : s.values.length < s.window_size / 2
  · have hlt : s.values.length < s.window_size := lt_of_lt_of_le hlen (Nat.div_le_self _ _)
    rw [is_anomaly_warmup s v hlen, dequeAppend_of_lt _ _ _ hlt]
  · cases hinit : s.is_initialized
    · rw [is_anomaly_classify_not_init s v hlen hinit]
    · rw [is_anomaly_classify_init s v hlen hinit]

theorem is_anomaly_window_size (s : AnomalyDetector) (v : ℝ) :
    (is_anomaly s v).2.window_size = s.window_size := by
  by_cases hlen : s.values.length < s.window_size / 2
  · rw [is_anomaly_warmup s v hlen]
  · cases hinit : s.is_initialized
    · rw [is_anomaly_classify_not_init s v hlen hinit]
    · rw [is_anomaly_classify_init s v hlen hinit]

theorem is_anomaly_threshold (s : AnomalyDetector) (v : ℝ) :
    (is_anomaly s v).2.threshold = s.threshold := by
  by_cases hlen : s.values.length < s.window_size / 2
  · rw [is_anomaly_warmup s v hlen]
  · cases hinit : s.is_initialized
    · rw [is_anomaly_classify_not_init s v hlen hinit]
    · rw [is_anomaly_classify_init s v hlen hinit]

theorem runDetector_window_size (xs : List ℝ) : ∀ s : AnomalyDetector,
    (runDetector s xs).window_size = s.window_size := by
  induction xs with
  | nil => intro s; rfl
  | cons v vs ih => intro s; rw [runDetector, ih, is_anomaly_window_size]

theorem runDetector_threshold (xs : List ℝ) : ∀ s : AnomalyDetector,
    (runDetector s xs).threshold = s.threshold := by
  induction xs with
  | nil => intro s; rfl
  | cons v vs ih => intro s; rw [runDetector, ih, is_anomaly_threshold]

/-! ### The cached-statistics invariant -/

/-- Once the detector is initialized, the cached `mean`/`std` are exactly the
    statistics of the current window, and the window has passed the warm-up
    threshold. -/
def StatsInv (s : AnomalyDetector) : Prop :=
  s.is_initialized = true →
    s.mean = npMean s.values ∧ s.std = npStd s.values ∧
      s.window_size / 2 ≤ s.values.length

theorem statsInv_init (ws : ℕ) (θ : ℝ) : StatsInv (AnomalyDetector.init ws θ) := by
  intro h
  simp [AnomalyDetector.init] at h

theorem statsInv_step (s : AnomalyDetector) (v : ℝ) (hs : StatsInv s) :
    StatsInv (is_anomaly s v).2 := by
  by_cases hlen : s.values.length < s.window_size / 2
  · rw [is_anomaly_warmup s v hlen]
    intro h
    simp only at h
    rcases hs h with ⟨-, -, hle⟩
    omega
  · push_neg at hlen
    have hlen' : ¬ s.values.length < s.window_size / 2 := by omega
    have hpost : s.window_size / 2 ≤ (dequeAppend s.window_size s.values v).length := by
      rw [dequeAppend_length]
      have := Nat.div_le_self s.window_size 2
      omega
    cases hinit : s.is_initialized
    · rw [is_anomaly_classify_not_init s v hlen' hinit]
      intro _
      exact ⟨rfl, rfl, hpost⟩
    · rw [is_anomaly_classify_init s v hlen' hinit]
      intro _
      exact ⟨rfl, rfl, hpost⟩

theorem runDetector_statsInv (xs : List ℝ) : ∀ s : AnomalyDetector,
    StatsInv s → StatsInv (runDetector s xs) := by
  induction xs with
  | nil => intro s hs; exact hs
  | cons v vs ih => intro s hs; exact ih _ (statsInv_step s v hs)

/-! ### The window is always the suffix of the fed samples -/

theorem runDetector_values (xs : List ℝ) : ∀ s : AnomalyDetector,
    s.values.length ≤ s.window_size →
    (runDetector s xs).values =
      (s.values ++ xs).drop ((s.values ++ xs).length - s.window_size) := by
  induction xs with
  | nil =>
    intro s hs
    simp only [runDetector, List.append_nil]
    rw [Nat.sub_eq_zero_of_le hs, List.drop_zero]
  | cons v vs ih =>
    intro s hs
    rw [runDetector]
    have hvals : (is_anomaly s v).2.values =
        (s.values ++ [v]).drop (s.values.length + 1 - s.window_size) := by
      rw [is_anomaly_values, dequeAppend_eq_drop]
    have hws : (is_anomaly s v).2.window_size = s.window_size :=
      is_anomaly_window_size s v
    have hlen : (is_anomaly s v).2.values.length ≤ (is_anomaly s v).2.window_size := by
      rw [is_anomaly_values, dequeAppend_length, hws]
      omega
    have hlen2 : (is_anomaly s v).2.values.length =
        min (s.values.length + 1) s.window_size := by
      rw [is_anomaly_values, dequeAppend_length]
    rw [ih _ hlen, hws]
    have hd : s.values.length + 1 - s.window_size ≤ (s.values ++ [v]).length := by
      simp
    calc ((is_anomaly s v).2.values ++ vs).drop
          (((is_anomaly s v).2.values ++ vs).length - s.window_size)
        = ((s.values ++ [v]).drop (s.values.length + 1 - s.window_size) ++ vs).drop
            ((is_anomaly s v).2.values.length + vs.length - s.window_size) := by
          rw [hvals]
          simp only [List.length_append]
      _ = (((s.values ++ [v]) ++ vs).drop (s.values.length + 1 - s.window_size)).drop
            ((is_anomaly s v).2.values.length + vs.length - s.window_size) := by
          rw [List.drop_append_of_le_length hd]
      _ = ((s.values ++ [v]) ++ vs).drop
            (((is_anomaly s v).2.values.length + vs.length - s.window_size) +
              (s.values.length + 1 - s.window_size)) := by
          rw [List.drop_drop, Nat.add_comm]
      _ = (s.values ++ v :: vs).drop ((s.values ++ v :: vs).length - s.window_size) := by
          have hassoc : s.values ++ v :: vs = (s.values ++ [v]) ++ vs := by simp
          rw [hassoc]
          congr 1
          have hL : ((s.values ++ [v]) ++ vs).length = s.values.length + 1 + vs.length := by
            simp
            omega
          rw [hL]
          omega

theorem runDetector_values_init (ws : ℕ) (θ : ℝ) (xs : List ℝ) :
    (runDetector (AnomalyDetector.init ws θ) xs).values =
      xs.drop (xs.length - ws) := by
  have h := runDetector_values xs (AnomalyDetector.init ws θ) (by simp [AnomalyDetector.init])
  simpa [AnomalyDetector.init] using h

theorem runDetector_values_length (ws : ℕ) (θ : ℝ) (xs : List ℝ) :
    (runDetector (AnomalyDetector.init ws θ) xs).values.length = min xs.length ws := by
  rw [runDetector_values_init]
  simp only [List.length_drop]
  omega

/-! ### Warm-up behaviour and the initialization flag -/

theorem runDetector_warmup (xs : List ℝ) : ∀ s : AnomalyDetector,
    s.values.length + xs.length ≤ s.window_size / 2 →
    runOutputs s xs = List.replicate xs.length false ∧
      runDetector s xs = { s with values := s.values ++ xs } := by
  induction xs with
  | nil => intro s hs; exact ⟨rfl, by simp [runDetector]⟩
  | cons v vs ih =>
    intro s hs
    have hlt : s.values.length < s.window_size / 2 := by
      simp only [List.length_cons] at hs; omega
    have hstep := is_anomaly_warmup s v hlt
    have hnext : s.values.length + 1 + vs.length ≤ s.window_size / 2 := by
      simp only [List.length_cons] at hs; omega
    have ihv := ih { s with values := s.values ++ [v] } (by simpa using hnext)
    constructor
    · rw [runOutputs, hstep]
      simp only [List.length_cons, List.replicate_succ, List.cons.injEq]
      exact ⟨by trivial, ihv.1⟩
    · rw [runDetector, hstep]
      simp only
      rw [ihv.2]
      simp

theorem is_anomaly_init_mono (s : AnomalyDetector) (v : ℝ)
    (h : s.is_initialized = true) : (is_anomaly s v).2.is_initialized = true := by
  by_cases hlen : s.values.length < s.window_size / 2
  · rw [is_anomaly_warmup s v hlen]; exact h
  · rw [is_anomaly_classify_init s v hlen h]

theorem is_anomaly_init_of_classify (s : AnomalyDetector) (v : ℝ)
    (hlen : ¬ s.values.length < s.window_size / 2) :
    (is_anomaly s v).2.is_initialized = true := by
  cases hinit : s.is_initialized
  · rw [is_anomaly_classify_not_init s v hlen hinit]
  · rw [is_anomaly_classify_init s v hlen hinit]

theorem runDetector_append (xs ys : List ℝ) : ∀ s : AnomalyDetector,
    runDetector s (xs ++ ys) = runDetector (runDetector s xs) ys := by
  induction xs with
  | nil => intro s; rfl
  | cons v vs ih => intro s; rw [List.cons_append, runDetector, runDetector, ih]

theorem runDetector_initialized (ws : ℕ) (θ : ℝ) (xs : List ℝ)
    (h : ws / 2 < xs.length) :
    (runDetector (AnomalyDetector.init ws θ) xs).is_initialized = true := by
  induction xs using List.reverseRecOn with
  | nil => simp at h
  | append_singleton ys v ih =>
    rw [runDetector_append, runDetector]
    by_cases hy : ws / 2 < ys.length
    · exact is_anomaly_init_mono _ _ (ih hy)
    · have hlen : ¬ (runDetector (AnomalyDetector.init ws θ) ys).values.length <
          (runDetector (AnomalyDetector.init ws θ) ys).window_size / 2 := by
        rw [runDetector_values_length, runDetector_window_size]
        simp only [AnomalyDetector.init, List.length_append, List.length_singleton] at h ⊢
        have := Nat.div_le_self ws 2
        omega
      exact is_anomaly_init_of_classify _ _ hlen

/-! ### Statistics of constant windows -/

theorem npMean_replicate (n : ℕ) (c : ℝ) (hn : n ≠ 0) :
    npMean (List.replicate n c) = c := by
  rw [npMean, List.sum_replicate, nsmul_eq_mul, List.length_replicate]
  field_simp

theorem npVar_replicate (n : ℕ) (c : ℝ) : npVar (List.replicate n c) = 0 := by
  rcases Nat.eq_zero_or_pos n with hn | hn
  · subst hn
    simp [npVar]
  · rw [npVar, npMean_replicate n c (Nat.pos_iff_ne_zero.mp hn), List.map_replicate]
    simp

theorem npStd_replicate (n : ℕ) (c : ℝ) : npStd (List.replicate n c) = 0 := by
  rw [npStd, npVar_replicate, Real.sqrt_zero]

theorem dequeAppend_replicate (ws k : ℕ) (c : ℝ) :
    dequeAppend ws (List.replicate k c) c = List.replicate (min (k + 1) ws) c := by
  rw [dequeAppend_eq_drop, ← List.replicate_succ', List.length_replicate,
    List.drop_replicate]
  congr 1
  omega

theorem eps_pos : 0 < eps := by norm_num [eps]

theorem runOutputs_append (xs ys : List ℝ) : ∀ s : AnomalyDetector,
    runOutputs s (xs ++ ys) = runOutputs s xs ++ runOutputs (runDetector s xs) ys := by
  induction xs with
  | nil => intro s; rfl
  | cons v vs ih =>
    intro s
    rw [List.cons_append, runOutputs, runOutputs, runDetector, ih, List.cons_append]

/-- Exact state of a detector with `window_size ≥ 2` after it has consumed a
    constant stream: during warm-up nothing but the window changes; past
    warm-up the statistics are `mean = c`, `std = 0`, and every verdict is
    `false` as long as the threshold is positive. -/
theorem runDetector_const (ws : ℕ) (θ c : ℝ) (hws : 2 ≤ ws) (hθ : 0 < θ) :
    ∀ n : ℕ,
      runOutputs (AnomalyDetector.init ws θ) (List.replicate n c) =
        List.replicate n false ∧
      runDetector (AnomalyDetector.init ws θ) (List.replicate n c) =
        (if n ≤ ws / 2 then
          { window_size := ws, threshold := θ, values := List.replicate n c,
            is_initialized := false, mean := 0, std := 0 }
         else
          { window_size := ws, threshold := θ,
            values := List.replicate (min n ws) c,
            is_initialized := true, mean := c, std := 0 }) := by
  have hhalf : ws / 2 < ws := Nat.div_lt_self (by omega) (by omega)
  intro n
  induction n with
  | zero => simp [runOutputs, runDetector, AnomalyDetector.init]
  | succ n ih =>
    obtain ⟨ihOut, ihState⟩ := ih
    have hsplit : List.replicate (n + 1) c = List.replicate n c ++ [c] :=
      List.replicate_succ' n c
    have houts : runOutputs (AnomalyDetector.init ws θ) (List.replicate (n + 1) c) =
        List.replicate n false ++
          [(is_anomaly (runDetector (AnomalyDetector.init ws θ) (List.replicate n c)) c).1] ∧
        runDetector (AnomalyDetector.init ws θ) (List.replicate (n + 1) c) =
          (is_anomaly (runDetector (AnomalyDetector.init ws θ) (List.replicate n c)) c).2 := by
      rw [hsplit, runDetector_append, runOutputs_append, ihOut]
      exact ⟨rfl, rfl⟩
    rw [houts.1, houts.2, ihState]
    by_cases hn : n ≤ ws / 2
    · rw [if_pos hn]
      by_cases hn' : n < ws / 2
      · -- still in warm-up after this sample
        have hwu := is_anomaly_warmup
          { window_size := ws, threshold := θ, values := List.replicate n c,
            is_initialized := false, mean := 0, std := 0 } c
          (by simpa using hn')
        rw [hwu]
        constructor
        · simp [List.replicate_succ']
        · rw [if_pos (by omega)]
          simp [List.replicate_succ']
      · -- the first sample past warm-up: classify with fresh statistics
        have hn0 : n = ws / 2 := by omega
        have hlen : ¬ (List.replicate n c).length < ws / 2 := by simp; omega
        have hcl := is_anomaly_classify_not_init
          { window_size := ws, threshold := θ, values := List.replicate n c,
            is_initialized := false, mean := 0, std := 0 } c
          (by simpa using hlen) rfl
        rw [hcl]
        have hnz : n ≠ 0 := by omega
        have hz : (c - npMean (List.replicate n c)) / (npStd (List.replicate n c) + eps) = 0 := by
          rw [npMean_replicate n c hnz, sub_self, zero_div]
        have hd : decide (|(0:ℝ)| > θ) = false := by
          rw [decide_eq_false_iff_not, abs_zero]
          exact not_lt.mpr hθ.le
        constructor
        · simp only [hz, hd]
          rw [List.replicate_succ']
        · rw [if_neg (by omega), dequeAppend_replicate]
          have hmin : min (n + 1) ws = n + 1 := by omega
          rw [hmin]
          have hmean : npMean (List.replicate (n + 1) c) = c :=
            npMean_replicate (n + 1) c (by omega)
          have hstd : npStd (List.replicate (n + 1) c) = 0 := npStd_replicate (n + 1) c
          simp [hmean, hstd]
    · -- past warm-up with cached statistics mean = c, std = 0
      rw [if_neg hn]
      have hlen : ¬ (List.replicate (min n ws) c).length < ws / 2 := by simp; omega
      have hcl := is_anomaly_classify_init
        { window_size := ws, threshold := θ, values := List.replicate (min n ws) c,
          is_initialized := true, mean := c, std := 0 } c
        (by simpa using hlen) rfl
      rw [hcl]
      have hz : (c - c) / ((0:ℝ) + eps) = 0 := by rw [sub_self, zero_div]
      have hd : decide (|(0:ℝ)| > θ) = false := by
        rw [decide_eq_false_iff_not, abs_zero]
        exact not_lt.mpr hθ.le
      constructor
      · simp only [hz, hd]
        rw [List.replicate_succ']
      · rw [if_neg (by omega)]
        simp only [dequeAppend_replicate]
        have hmin : min (min n ws + 1) ws = min (n + 1) ws := by omega
        rw [hmin]
        have hc : min (n + 1) ws ≠ 0 := by omega
        have hmean : npMean (List.replicate (min (n + 1) ws) c) = c :=
          npMean_replicate _ c hc
        have hstd : npStd (List.replicate (min (n + 1) ws) c) = 0 :=
          npStd_replicate _ c
        simp [hmean, hstd]

/-! ### Statistics of the post-spike window `[1 × 9, 10]` -/

theorem npMean_spike : npMean (List.replicate 9 (1:ℝ) ++ [10]) = 19 / 10 := by
  show npMean [1, 1, 1, 1, 1, 1, 1, 1, 1, 10] = 19 / 10
  norm_num [npMean]

theorem npVar_spike : npVar (List.replicate 9 (1:ℝ) ++ [10]) = 729 / 100 := by
  rw [npVar, npMean_spike]
  show (List.map (fun x => (x - 19 / 10) ^ 2)
      [1, 1, 1, 1, 1, 1, 1, 1, 1, 10]).sum / (((10:ℕ) : ℝ)) = 729 / 100
  norm_num

theorem npStd_spike : npStd (List.replicate 9 (1:ℝ) ++ [10]) = 27 / 10 := by
  rw [npStd, npVar_spike, show (729 / 100 : ℝ) = (27 / 10) ^ 2 by norm_num]
  exact Real.sqrt_sq (by norm_num)

theorem dequeAppend_spike :
    dequeAppend 10 (List.replicate 10 (1:ℝ)) 10 = List.replicate 9 (1:ℝ) ++ [10] := rfl

/-! ### One-step verdicts used by the test scenarios -/

theorem spike_verdict (m : ℝ) (hm : (2.5:ℝ) * eps < m - 1) :
    decide (|((m:ℝ) - 1) / (0 + eps)| > 2.5) = true := by
  rw [decide_eq_true_eq, zero_add]
  have h1 : (0:ℝ) < m - 1 :=
    lt_trans (mul_pos (by norm_num) eps_pos) hm
  rw [abs_div, abs_of_pos h1, abs_of_pos eps_pos, gt_iff_lt, lt_div_iff₀ eps_pos]
  linarith

theorem recovery_verdict : decide (|((1:ℝ) - 19 / 10) / (27 / 10 + eps)| > 2.5) = false := by
  rw [decide_eq_false_iff_not]
  have hpos : (0:ℝ) < 27 / 10 + eps := by
    have := eps_pos
    linarith
  rw [show (1:ℝ) - 19 / 10 = -(9 / 10) by norm_num, abs_div, abs_neg,
    abs_of_nonneg (by norm_num : (0:ℝ) ≤ 9 / 10), abs_of_pos hpos,
    gt_iff_lt, not_lt, div_le_iff₀ hpos]
  norm_num [eps]

/-! ### Claim theorems: the detector -/

/-- C1: every `is_anomaly` call made when the window already holds at least
    `⌊window_size/2⌋` samples returns `true` iff
    `|(value - mean)/(std + 1e-10)| > threshold`, where `mean` and `std` are
    the statistics of the window's contents before the current value is
    inserted. -/
theorem C1_classify_uses_pre_insertion_stats (ws : ℕ) (θ : ℝ) (xs : List ℝ) (v : ℝ)
    (h : ws / 2 ≤ (runDetector (AnomalyDetector.init ws θ) xs).values.length) :
    ((is_anomaly (runDetector (AnomalyDetector.init ws θ) xs) v).1 = true ↔
      |(v - npMean (runDetector (AnomalyDetector.init ws θ) xs).values) /
        (npStd (runDetector (AnomalyDetector.init ws θ) xs).values + eps)| > θ) := by
  have hinv := runDetector_statsInv xs (AnomalyDetector.init ws θ) (statsInv_init ws θ)
  have hws : (runDetector (AnomalyDetector.init ws θ) xs).window_size = ws :=
    runDetector_window_size xs _
  have hth : (runDetector (AnomalyDetector.init ws θ) xs).threshold = θ :=
    runDetector_threshold xs _
  generalize hgen : runDetector (AnomalyDetector.init ws θ) xs = s at h hinv hws hth
  have hlen : ¬ s.values.length < s.window_size / 2 := by omega
  cases hinit : s.is_initialized
  · rw [is_anomaly_classify_not_init s v hlen hinit]
    simp only [decide_eq_true_eq, hth]
  · obtain ⟨hm, hstd, -⟩ := hinv hinit
    rw [is_anomaly_classify_init s v hlen hinit, hm, hstd]
    simp only [decide_eq_true_eq, hth]

theorem C1_classify_uses_pre_insertion_stats_witness :
    2 / 2 ≤ (runDetector (AnomalyDetector.init 2 1) [1]).values.length ∧
    ((is_anomaly (runDetector (AnomalyDetector.init 2 1) [1]) 5).1 = true ↔
      |(5 - npMean (runDetector (AnomalyDetector.init 2 1) [1]).values) /
        (npStd (runDetector (AnomalyDetector.init 2 1) [1]).values + eps)| > 1) := by
  have hlen : (runDetector (AnomalyDetector.init 2 1) [1]).values.length = 1 := by
    rw [runDetector_values_length]
    simp
  exact ⟨by omega, C1_classify_uses_pre_insertion_stats 2 1 [1] 5 (by omega)⟩

/-- C2: the first `⌊window_size/2⌋` calls insert the value and return `false`
    with no classification attempted (`is_initialized` stays `false`); the
    flag is monotone, and any run longer than `⌊window_size/2⌋` samples has
    set it for good. -/
theorem C2_warmup_gate_and_sticky_flag :
    (∀ (ws : ℕ) (θ : ℝ) (xs : List ℝ), xs.length ≤ ws / 2 →
      runOutputs (AnomalyDetector.init ws θ) xs = List.replicate xs.length false ∧
      (runDetector (AnomalyDetector.init ws θ) xs).is_initialized = false ∧
      (runDetector (AnomalyDetector.init ws θ) xs).values = xs) ∧
    (∀ (s : AnomalyDetector) (v : ℝ), s.is_initialized = true →
      (is_anomaly s v).2.is_initialized = true) ∧
    (∀ (ws : ℕ) (θ : ℝ) (xs : List ℝ), ws / 2 < xs.length →
      (runDetector (AnomalyDetector.init ws θ) xs).is_initialized = true) := by
  refine ⟨?_, is_anomaly_init_mono, runDetector_initialized⟩
  intro ws θ xs hlen
  have h := runDetector_warmup xs (AnomalyDetector.init ws θ) (by simpa [AnomalyDetector.init])
  refine ⟨h.1, ?_, ?_⟩
  · rw [h.2]
    simp [AnomalyDetector.init]
  · rw [h.2]
    simp [AnomalyDetector.init]

theorem C2_warmup_gate_and_sticky_flag_witness :
    runOutputs (AnomalyDetector.init 4 1) [3, 9] = [false, false] ∧
    (runDetector (AnomalyDetector.init 4 1) [3, 9]).is_initialized = false ∧
    (runDetector (AnomalyDetector.init 4 1) [3, 9, 5]).is_initialized = true ∧
    (is_anomaly { window_size := 4, threshold := 1, values := [3],
                  is_initialized := true, mean := 3, std := 0 } 7).2.is_initialized = true := by
  obtain ⟨h1, h2, h3⟩ := C2_warmup_gate_and_sticky_flag
  refine ⟨(h1 4 1 [3, 9] (by norm_num)).1, (h1 4 1 [3, 9] (by norm_num)).2.1,
    h3 4 1 [3, 9, 5] (by norm_num), h2 _ 7 rfl⟩

/-- C4: the window never exceeds the capacity; a sample inserted into a full
    window evicts exactly the oldest sample; and after `capacity + k`
    samples the window is exactly the last `capacity` samples in arrival
    order. -/
theorem C4_window_fifo_eviction :
    (∀ (ws : ℕ) (θ : ℝ) (xs : List ℝ),
      (runDetector (AnomalyDetector.init ws θ) xs).values.length ≤ ws) ∧
    (∀ (s : AnomalyDetector) (v : ℝ), 1 ≤ s.window_size →
      s.values.length = s.window_size →
      (is_anomaly s v).2.values = s.values.tail ++ [v]) ∧
    (∀ (ws k : ℕ) (θ : ℝ) (xs : List ℝ), 1 ≤ k → xs.length = ws + k →
      (runDetector (AnomalyDetector.init ws θ) xs).values = xs.drop k) := by
  refine ⟨?_, ?_, ?_⟩
  · intro ws θ xs
    rw [runDetector_values_length]
    omega
  · intro s v hws hfull
    rw [is_anomaly_values, dequeAppend_eq_drop, hfull]
    rw [show s.window_size + 1 - s.window_size = 1 by omega]
    rw [List.drop_append_of_le_length (by omega), List.drop_one]
  · intro ws k θ xs hk hlen
    rw [runDetector_values_init, hlen]
    congr 1
    omega

theorem C4_window_fifo_eviction_witness :
    (runDetector (AnomalyDetector.init 2 1) [5, 6, 7]).values.length ≤ 2 ∧
    (is_anomaly { window_size := 2, threshold := 1, values := [5, 6],
                  is_initialized := false, mean := 0, std := 0 } 7).2.values = [6, 7] ∧
    (runDetector (AnomalyDetector.init 2 1) [5, 6, 7]).values = [6, 7] := by
  obtain ⟨h1, h2, h3⟩ := C4_window_fifo_eviction
  exact ⟨h1 2 1 [5, 6, 7],
    h2 { window_size := 2, threshold := 1, values := [5, 6],
         is_initialized := false, mean := 0, std := 0 } 7 (by norm_num) rfl,
    h3 2 1 1 [5, 6, 7] (by norm_num) rfl⟩

/-- C5: after every `is_anomaly` call made past warm-up, the cached
    `mean`/`std` are exactly the statistics of the window's contents after
    the current value was inserted. -/
theorem C5_cache_reflects_post_insertion (s : AnomalyDetector) (v : ℝ)
    (h : s.window_size / 2 ≤ s.values.length) :
    (is_anomaly s v).2.mean = npMean (is_anomaly s v).2.values ∧
    (is_anomaly s v).2.std = npStd (is_anomaly s v).2.values ∧
    (is_anomaly s v).2.values = dequeAppend s.window_size s.values v := by
  have hlen : ¬ s.values.length < s.window_size / 2 := by omega
  cases hinit : s.is_initialized
  · rw [is_anomaly_classify_not_init s v hlen hinit]
    exact ⟨rfl, rfl, rfl⟩
  · rw [is_anomaly_classify_init s v hlen hinit]
    exact ⟨rfl, rfl, rfl⟩

theorem C5_cache_reflects_post_insertion_witness :
    (is_anomaly { window_size := 2, threshold := 1, values := [4],
                  is_initialized := false, mean := 0, std := 0 } 6).2.mean =
      npMean (is_anomaly { window_size := 2, threshold := 1, values := [4],
                           is_initialized := false, mean := 0, std := 0 } 6).2.values ∧
    (is_anomaly { window_size := 2, threshold := 1, values := [4],
                  is_initialized := false, mean := 0, std := 0 } 6).2.std =
      npStd (is_anomaly { window_size := 2, threshold := 1, values := [4],
                          is_initialized := false, mean := 0, std := 0 } 6).2.values ∧
    (is_anomaly { window_size := 2, threshold := 1, values := [4],
                  is_initialized := false, mean := 0, std := 0 } 6).2.values =
      dequeAppend 2 [4] 6 :=
  C5_cache_reflects_post_insertion
    { window_size := 2, threshold := 1, values := [4],
      is_initialized := false, mean := 0, std := 0 } 6 (by norm_num)

/-- C6: with `capacity = 5, threshold = 2.5`, feeding `[1,1,1,1,1]` then `10`
    yields `false` five times then `true`; with `capacity = 10,
    threshold = 2.5`, feeding ten `1`s, `10`, then `1` yields `true` for the
    `10` and `false` for the final `1`. -/
theorem C6_spike_detection_and_recovery :
    runOutputs (AnomalyDetector.init 5 2.5) [1, 1, 1, 1, 1, 10] =
      [false, false, false, false, false, true] ∧
    runOutputs (AnomalyDetector.init 10 2.5) [1, 1, 1, 1, 1, 1, 1, 1, 1, 1, 10, 1] =
      [false, false, false, false, false, false, false, false, false, false,
       true, false] := by
  constructor
  · have h5 := runDetector_const 5 2.5 1 (by norm_num) (by norm_num) 5
    have hsplit : [1, 1, 1, 1, 1, (10:ℝ)] = List.replicate 5 (1:ℝ) ++ [10] := rfl
    rw [hsplit, runOutputs_append, h5.1, h5.2, if_neg (by omega)]
    have hcl := is_anomaly_classify_init
      { window_size := 5, threshold := 2.5, values := List.replicate (min 5 5) 1,
        is_initialized := true, mean := 1, std := 0 } 10
      (by simp) rfl
    rw [runOutputs, runOutputs, hcl]
    simp only
    rw [spike_verdict 10 (by norm_num [eps])]
    rfl
  · have h10 := runDetector_const 10 2.5 1 (by norm_num) (by norm_num) 10
    have hsplit : [1, 1, 1, 1, 1, 1, 1, 1, 1, 1, (10:ℝ), 1] =
        List.replicate 10 (1:ℝ) ++ [10, 1] := rfl
    rw [hsplit, runOutputs_append, h10.1, h10.2, if_neg (by omega)]
    have hmin : (min 10 10 : ℕ) = 10 := rfl
    rw [hmin]
    have hcl1 := is_anomaly_classify_init
      { window_size := 10, threshold := 2.5, values := List.replicate 10 1,
        is_initialized := true, mean := 1, std := 0 } 10
      (by simp) rfl
    rw [runOutputs, hcl1]
    simp only
    rw [spike_verdict 10 (by norm_num [eps]), dequeAppend_spike, npMean_spike,
      npStd_spike]
    have hcl2 := is_anomaly_classify_init
      { window_size := 10, threshold := 2.5,
        values := List.replicate 9 (1:ℝ) ++ [10],
        is_initialized := true, mean := 19 / 10, std := 27 / 10 } 1
      (by simp) rfl
    rw [runOutputs, hcl2]
    simp only
    rw [recovery_verdict, runOutputs]
    rfl

/-- C7: a detector with `capacity = 5, threshold = 2.5` answers `false` on
    all of `[1,1,1,1,1]`; a window of identical values has `std = 0`; and a
    constant stream is never flagged (any capacity ≥ 2, positive
    threshold). -/
theorem C7_constant_stream_stability :
    runOutputs (AnomalyDetector.init 5 2.5) [1, 1, 1, 1, 1] =
      [false, false, false, false, false] ∧
    (∀ (k : ℕ) (c : ℝ), npStd (List.replicate k c) = 0) ∧
    (∀ (ws n : ℕ) (θ c : ℝ), 2 ≤ ws → 0 < θ →
      runOutputs (AnomalyDetector.init ws θ) (List.replicate n c) =
        List.replicate n false) := by
  refine ⟨?_, npStd_replicate, ?_⟩
  · exact (runDetector_const 5 2.5 1 (by norm_num) (by norm_num) 5).1
  · intro ws n θ c hws hθ
    exact (runDetector_const ws θ c hws hθ n).1

theorem C7_constant_stream_stability_witness :
    runOutputs (AnomalyDetector.init 6 1) (List.replicate 3 2) =
      List.replicate 3 false :=
  C7_constant_stream_stability.2.2 6 3 1 2 (by norm_num) (by norm_num)

/-! ### Claim theorems: the generator and construction -/

/-- C8: every `get_next_value` call returns the sum of the seasonal, trend,
    noise and outlier terms and increments the counter by exactly 1 (leaving
    every other field unchanged); the outlier term is `0` unless `u < 0.01`
    and otherwise a signed spike, 1.5 times larger when negative; with zero
    trend and noise and no outlier the output at step `n` is
    `sin(2π·n/seasonal_period)`. -/
theorem C8_generator_structure (s : DataStreamSimulator) (r : RandomDraws) :
    (get_next_value s r).1 =
      seasonalTerm s + trendTerm s + noiseTerm s r + outlierTerm r ∧
    (get_next_value s r).2 = { s with counter := s.counter + 1 } ∧
    (¬ r.u < 0.01 → outlierTerm r = 0) ∧
    (r.u < 0.01 → r.negative = true → outlierTerm r = -(r.magnitude * 1.5)) ∧
    (r.u < 0.01 → r.negative = false → outlierTerm r = r.magnitude) ∧
    (s.trend_factor = 0 → s.noise_level = 0 → ¬ r.u < 0.01 →
      (get_next_value s r).1 =
        Real.sin (2 * Real.pi * s.counter / s.seasonal_period)) := by
  refine ⟨rfl, rfl, ?_, ?_, ?_, ?_⟩
  · intro h
    rw [outlierTerm, if_neg h]
  · intro h hneg
    rw [outlierTerm, if_pos h, hneg]
    simp
  · intro h hneg
    rw [outlierTerm, if_pos h, hneg]
    simp
  · intro ht hn hu
    have h0 : outlierTerm r = 0 := by rw [outlierTerm, if_neg hu]
    show seasonalTerm s + trendTerm s + noiseTerm s r + outlierTerm r =
      Real.sin (2 * Real.pi * s.counter / s.seasonal_period)
    rw [h0, trendTerm, ht, noiseTerm, hn, seasonalTerm]
    ring

theorem C8_generator_structure_witness :
    (get_next_value (mkDataStreamSimulator 24 0 0)
        { gauss := 0, u := 1 / 2, negative := false, magnitude := 7 }).1 =
      Real.sin (2 * Real.pi * ((0 : ℕ) : ℝ) / ((24 : ℤ) : ℝ)) :=
  (C8_generator_structure (mkDataStreamSimulator 24 0 0)
    { gauss := 0, u := 1 / 2, negative := false, magnitude := 7 }).2.2.2.2.2
    rfl rfl (by norm_num)

/-- C9: for every valid parameterization (`seasonal_period > 0`) and finite
    random draws, `get_next_value` never fails: the checked version (whose
    only failure point is the division by a zero period, the one operation
    that can raise) returns the real-valued result. -/
theorem C9_generator_total_for_valid_params (s : DataStreamSimulator)
    (r : RandomDraws) (h : 0 < s.seasonal_period) :
    get_next_value_checked s r = some (get_next_value s r) := by
  rw [get_next_value_checked, if_neg (by omega)]

theorem C9_generator_total_for_valid_params_witness :
    get_next_value_checked (mkDataStreamSimulator 24 (1 / 10) (1 / 2))
        { gauss := 1, u := 1 / 2, negative := false, magnitude := 7 } =
      some (get_next_value (mkDataStreamSimulator 24 (1 / 10) (1 / 2))
        { gauss := 1, u := 1 / 2, negative := false, magnitude := 7 }) :=
  C9_generator_total_for_valid_params _ _ (by norm_num [mkDataStreamSimulator])

/-- C3 counterexample: construction never fails on the inputs the claim says
    it must reject — `window_size = 0`, `threshold = 0`, negative threshold,
    and a generator with `seasonal_period ≤ 0` are all accepted silently at
    construction time. -/
theorem C3_no_construction_validation_counterexample :
    (mkAnomalyDetector 0 3).isSome = true ∧
    (mkAnomalyDetector 100 0).isSome = true ∧
    (mkAnomalyDetector 100 (-2)).isSome = true ∧
    mkDataStreamSimulator 0 (1 / 10) (1 / 2) =
      { seasonal_period := 0, trend_factor := 1 / 10, noise_level := 1 / 2,
        counter := 0 } ∧
    mkDataStreamSimulator (-24) (1 / 10) (1 / 2) =
      { seasonal_period := -24, trend_factor := 1 / 10, noise_level := 1 / 2,
        counter := 0 } :=
  ⟨rfl, rfl, rfl, rfl, rfl⟩

/-- C3 amended: the detector's constructor fails only for a negative
    `window_size` (the deque's `maxlen` check); `window_size = 0` and any
    threshold are accepted, the generator's constructor accepts any
    parameters, and a zero `seasonal_period` only fails later, inside
    `get_next_value`. -/
theorem C3_construction_accepts_invalid_params :
    (∀ (ws : ℤ) (θ : ℝ), (mkAnomalyDetector ws θ).isSome = true ↔ 0 ≤ ws) ∧
    (∀ (p : ℤ) (t n : ℝ), mkDataStreamSimulator p t n =
      { seasonal_period := p, trend_factor := t, noise_level := n,
        counter := 0 }) ∧
    (∀ (t n : ℝ) (r : RandomDraws),
      get_next_value_checked (mkDataStreamSimulator 0 t n) r = none) := by
  refine ⟨?_, fun p t n => rfl, fun t n r => rfl⟩
  intro ws θ
  rw [mkAnomalyDetector]
  by_cases h : ws < 0
  · rw [if_pos h]
    simp
    omega
  · rw [if_neg h]
    simp
    omega

/-- C10: with `window_size ≥ 2`, whenever a call passes the warm-up gate the
    window is non-empty (it holds at least `⌊window_size/2⌋ ≥ 1` samples),
    both when the pre-insertion and when the post-insertion statistics are
    computed; with `window_size = 1` the warm-up phase is empty and the very
    first call passes the gate with an empty window. -/
theorem C10_stats_window_nonempty :
    (∀ (s : AnomalyDetector) (v : ℝ), 2 ≤ s.window_size →
      ¬ s.values.length < s.window_size / 2 →
      (1 ≤ s.window_size / 2 ∧ s.values ≠ [] ∧ (is_anomaly s v).2.values ≠ [])) ∧
    (∀ θ : ℝ, ¬ (AnomalyDetector.init 1 θ).values.length <
        (AnomalyDetector.init 1 θ).window_size / 2 ∧
      (AnomalyDetector.init 1 θ).values = []) := by
  constructor
  · intro s v hws hlen
    have h1 : 1 ≤ s.window_size / 2 := by omega
    refine ⟨h1, ?_, ?_⟩
    · intro hnil
      have h0 : s.values.length = 0 := by rw [hnil]; rfl
      omega
    · intro hnil
      have h0 : (is_anomaly s v).2.values.length = 0 := by rw [hnil]; rfl
      rw [is_anomaly_values, dequeAppend_length] at h0
      omega
  · intro θ
    refine ⟨?_, rfl⟩
    show ¬ ([] : List ℝ).length < 1 / 2
    norm_num

theorem C10_stats_window_nonempty_witness :
    1 ≤ (4 : ℕ) / 2 ∧ ([5, 6] : List ℝ) ≠ [] ∧
    (is_anomaly { window_size := 4, threshold := 3, values := [5, 6],
                  is_initialized := false, mean := 0, std := 0 } 7).2.values ≠ [] :=
  C10_stats_window_nonempty.1
    { window_size := 4, threshold := 3, values := [5, 6],
      is_initialized := false, mean := 0, std := 0 } 7 (by norm_num) (by norm_num)

end AnomalyDetection
